import Mathlib

/-!
Shallow embedding of the control core of the duplo-lego-car firmware:
the main loop arbitration (main.cpp), the MQTT remote-intent callback and
per-cycle read-and-reset (mqttClient.cpp), the nunchuck local-intent
reduction and raw-data read (nunchuck.cpp), and the motor mapping with the
range-based speed envelope (motors.cpp, Motors::setMapped).

Machine integers are modelled as unbounded Int with C truncating division
(Int.tdiv); in every use below the operands stay far inside 32-bit range,
so the model is exact.
-/

namespace DuploCar

/-- Spin status written to a motor driver channel: MOTOR_STATUS_CW,
MOTOR_STATUS_CCW or MOTOR_STATUS_STOP. -/
inductive Spin
  | CW
  | CCW
  | STOP
deriving DecidableEq

/-- What Motors::setMapped emits to one motor driver in one call: the value
passed to changeDuty, if changeDuty is called at all on that side (the STOP
branch calls only changeStatus), and the value passed to changeStatus. -/
structure WheelCmd where
  duty : Option Int
  spin : Spin
deriving DecidableEq

/-- The observable output of one Motors::setMapped call: the two per-side
commands and the Direction label it ends up with (published to MQTT when it
is not "STOP"). -/
structure MotorsOut where
  left : WheelCmd
  right : WheelCmd
  direction : String
deriving DecidableEq

/-- maxDuty in Motors::setMapped. -/
def maxDuty : Int := 50

/-- maxRotationDuty in Motors::setMapped. -/
def maxRotationDuty : Int := 50

/-- SafeDistanceMM in Motors::setMapped. -/
def SafeDistanceMM : Int := 300

/-- DeadzoneMM in Motors::setMapped. -/
def DeadzoneMM : Int := 60

/-- minimumDuty in Motors::setMapped. -/
def minimumDuty : Int := 16

/-- maxTurnDuty = maxDuty / 2 in Motors::setMapped. -/
def maxTurnDuty : Int := Int.tdiv maxDuty 2

/-- The failure sentinel returned by Laser::Loop (laser.h): INT_MAX for a
32-bit int. -/
def INT_MAX : Int := 2147483647

/-- Arduino long map(x, in_min, in_max, out_min, out_max) =
(x - in_min) * (out_max - out_min) / (in_max - in_min) + out_min, with C
long division, which truncates toward zero. -/
def arduinoMap (x lo hi outLo outHi : Int) : Int :=
  Int.tdiv ((x - lo) * (outHi - outLo)) (hi - lo) + outLo

/-- The duty-ceiling computation at the top of Motors::setMapped: far
readings give maxDuty, readings between DeadzoneMM and SafeDistanceMM are
interpolated with Arduino map, anything else (including readings below the
deadzone) gives 0. -/
def planDuty (laserRangeMilliMeter : Int) : Int :=
  if laserRangeMilliMeter > SafeDistanceMM then
    maxDuty
  else if laserRangeMilliMeter ≤ SafeDistanceMM ∧ laserRangeMilliMeter ≥ DeadzoneMM then
    arduinoMap laserRangeMilliMeter DeadzoneMM SafeDistanceMM minimumDuty maxDuty
  else
    0

/-- The nine movement classes of the direction chain in Motors::setMapped. -/
inductive MovementClass
  | NORTH
  | NORTH_EAST
  | EAST
  | SOUTH_EAST
  | SOUTH
  | SOUTH_WEST
  | WEST
  | NORTH_WEST
  | STOP
deriving DecidableEq

/-- The branch selector of the if/else-if chain in Motors::setMapped, in
source order, with the final else giving STOP. -/
def classify (mapx mapy : Int) : MovementClass :=
  if mapx = 0 ∧ mapy = 1 then MovementClass.NORTH
  else if mapx = 1 ∧ mapy = 1 then MovementClass.NORTH_EAST
  else if mapx = 1 ∧ mapy = 0 then MovementClass.EAST
  else if mapx = 1 ∧ mapy = -1 then MovementClass.SOUTH_EAST
  else if mapx = 0 ∧ mapy = -1 then MovementClass.SOUTH
  else if mapx = -1 ∧ mapy = -1 then MovementClass.SOUTH_WEST
  else if mapx = -1 ∧ mapy = 0 then MovementClass.WEST
  else if mapx = -1 ∧ mapy = 1 then MovementClass.NORTH_WEST
  else MovementClass.STOP

/-- The Direction string each branch of Motors::setMapped assigns. -/
def directionLabel : MovementClass → String
  | MovementClass.NORTH => "NORTH"
  | MovementClass.NORTH_EAST => "NORTH EAST"
  | MovementClass.EAST => "EAST"
  | MovementClass.SOUTH_EAST => "SOUTH EAST"
  | MovementClass.SOUTH => "SOUTH"
  | MovementClass.SOUTH_WEST => "SOUTH WEST"
  | MovementClass.WEST => "WEST"
  | MovementClass.NORTH_WEST => "NORTH WEST"
  | MovementClass.STOP => "STOP"

/-- The per-branch motor commands of Motors::setMapped, as a function of the
branch taken and the computed Duty ceiling. Only the NORTH branch uses the
Duty variable; NORTH_EAST/SOUTH_EAST use maxDuty and maxTurnDuty,
SOUTH/SOUTH_WEST/NORTH_WEST use maxDuty and maxTurnDuty, EAST/WEST use
maxRotationDuty, and the STOP branch calls changeStatus only (no duty
write). -/
def mapToWheels (c : MovementClass) (ceiling : Int) : WheelCmd × WheelCmd :=
  match c with
  | MovementClass.NORTH => (⟨some ceiling, Spin.CW⟩, ⟨some ceiling, Spin.CW⟩)
  | MovementClass.NORTH_EAST => (⟨some maxDuty, Spin.CW⟩, ⟨some maxTurnDuty, Spin.CW⟩)
  | MovementClass.EAST => (⟨some maxRotationDuty, Spin.CW⟩, ⟨some maxRotationDuty, Spin.CCW⟩)
  | MovementClass.SOUTH_EAST => (⟨some maxDuty, Spin.CCW⟩, ⟨some maxTurnDuty, Spin.CCW⟩)
  | MovementClass.SOUTH => (⟨some maxDuty, Spin.CCW⟩, ⟨some maxDuty, Spin.CCW⟩)
  | MovementClass.SOUTH_WEST => (⟨some maxTurnDuty, Spin.CCW⟩, ⟨some maxDuty, Spin.CCW⟩)
  | MovementClass.WEST => (⟨some maxRotationDuty, Spin.CCW⟩, ⟨some maxRotationDuty, Spin.CW⟩)
  | MovementClass.NORTH_WEST => (⟨some maxTurnDuty, Spin.CW⟩, ⟨some maxDuty, Spin.CW⟩)
  | MovementClass.STOP => (⟨none, Spin.STOP⟩, ⟨none, Spin.STOP⟩)

/-- Motors::setMapped(mapx, mapy, laserRangeMilliMeter), assembled exactly
as in the source: compute Duty from the laser reading, then run the
direction chain. -/
def setMapped (mapx mapy laserRangeMilliMeter : Int) : MotorsOut :=
  let Duty := planDuty laserRangeMilliMeter
  let cls := classify mapx mapy
  { left := (mapToWheels cls Duty).1
    right := (mapToWheels cls Duty).2
    direction := directionLabel cls }

/-- The MotorXY struct of motors.h. -/
structure MotorXY where
  motor_x : Int
  motor_y : Int
  fromMQTT : Bool
deriving DecidableEq

/-- MQTT::callback on a control message that contains the key
left_x_mapped: reset motorXY to (0, 0, fromMQTT := true), then apply the
four threshold tests in source order (magnitude above 10 sets a unit
intent; the vertical axis is inverted). -/
def callbackUpdate (left_x_mapped left_y_mapped : Int) : MotorXY :=
  let m0 : MotorXY := { motor_x := 0, motor_y := 0, fromMQTT := true }
  let m1 := if left_x_mapped < -10 then { m0 with motor_x := -1 } else m0
  let m2 := if left_x_mapped > 10 then { m1 with motor_x := 1 } else m1
  let m3 := if left_y_mapped < -10 then { m2 with motor_y := 1 } else m2
  let m4 := if left_y_mapped > 10 then { m3 with motor_y := -1 } else m3
  m4

/-- MQTT::Loop: return a copy of the stored motorXY and reset the stored
value to (0, 0, fromMQTT := false) for the next cycle. -/
def mqttLoop (motorXY : MotorXY) : MotorXY × MotorXY :=
  (motorXY, { motor_x := 0, motor_y := 0, fromMQTT := false })

/-- The joystick-axis reduction in Nunchuck::Loop:
map(joy, 0, 255, -1, 1). -/
def nunchuckAxis (joy : Int) : Int :=
  arduinoMap joy 0 255 (-1) 1

/-- Nunchuck::Loop output for raw joystick bytes (joyx, joyy), each a uint8
value in [0, 255]: both axes reduced with nunchuckAxis, fromMQTT false. -/
def nunchuckLoop (joyx joyy : Int) : MotorXY :=
  { motor_x := nunchuckAxis joyx, motor_y := nunchuckAxis joyy, fromMQTT := false }

/-- The arbitration in loop() of main.cpp: take mqtt.Loop()'s value and
replace it with nunchuck.Loop()'s value exactly when fromMQTT is false. -/
def loopSelect (mqttVal nunchuckVal : MotorXY) : MotorXY :=
  if mqttVal.fromMQTT = false then nunchuckVal else mqttVal

/-- nunchuk_decode_byte: (x XOR 0x17) + 0x17 on an 8-bit char. -/
def nunchuk_decode_byte (x : Nat) : Nat :=
  ((x ^^^ 0x17) + 0x17) % 256

/-- The while-loop body of Nunchuck::nunchuck_get_data: one buffer write
nunchuck_buf[cnt] = decode(byte) per available byte, cnt starting at the
given value and incremented after each write, with no bound check against
the 6-byte buffer. Each list entry is (index written, value written). -/
def getDataWrites : List Nat → Nat → List (Nat × Nat)
  | [], _ => []
  | b :: rest, cnt => (cnt, nunchuk_decode_byte b) :: getDataWrites rest (cnt + 1)

/-- Nunchuck::nunchuck_get_data over the list of bytes the I2C layer
reports available: the sequence of buffer writes, and the return value
(1 when cnt >= 5, else 0). -/
def nunchuck_get_data (available : List Nat) : List (Nat × Nat) × Nat :=
  (getDataWrites available 0, if 5 ≤ available.length then 1 else 0)

/-- Modelled from the spec (section 4.3): the ramp-zone ceiling as the
linear interpolation of the reading from [DeadzoneMM, SafeDistanceMM] onto
[minimumDuty, maxDuty], rounded to the nearest integer. This is the
spec-side definition, for comparison with planDuty. -/
def planDutyNearest (d : Int) : Int :=
  round ((minimumDuty : ℚ) +
    ((d : ℚ) - (DeadzoneMM : ℚ)) * ((maxDuty : ℚ) - (minimumDuty : ℚ)) /
      ((SafeDistanceMM : ℚ) - (DeadzoneMM : ℚ)))

/-- The EAST branch of the direction chain is taken exactly on the intent
pair (1, 0). -/
lemma classify_east_iff (x y : Int) :
    classify x y = MovementClass.EAST ↔ x = 1 ∧ y = 0 := by
  unfold classify
  split_ifs <;> simp_all

/-- The WEST branch of the direction chain is taken exactly on the intent
pair (-1, 0). -/
lemma classify_west_iff (x y : Int) :
    classify x y = MovementClass.WEST ↔ x = -1 ∧ y = 0 := by
  unfold classify
  split_ifs <;> simp_all

/-- The buffer indices written by the nunchuck_get_data loop starting at
counter c are c, c+1, ..., one per available byte. -/
lemma getDataWrites_map_fst (l : List Nat) (c : Nat) :
    (getDataWrites l c).map Prod.fst = List.range' c l.length := by
  induction l generalizing c with
  | nil => rfl
  | cons b rest ih => simp [getDataWrites, List.range'_succ, ih]

/-- C1: the claim requires that when the range measurement fails (Laser::Loop
returns INT_MAX) the duty ceiling is not maxDuty. The code violates it: the
sentinel INT_MAX is larger than SafeDistanceMM, so the first branch of the
speed law fires and the ceiling is exactly maxDuty (full speed). This
theorem evaluates the code at the failing input. -/
theorem planDuty_sentinel_gives_maxDuty :
    planDuty INT_MAX = maxDuty ∧ maxDuty = 50 := by decide

/-- C2: the claim states that every non-STOP, non-EAST, non-WEST class
applies its duty fraction to the range-derived ceiling, so that intent
(1, 1) with a valid 180 mm reading (ceiling 33) commands left duty 33 and
right duty 16-17. The code violates it: the NORTH_EAST branch writes the
constants maxDuty = 50 and maxTurnDuty = 25, ignoring the computed Duty
ceiling. This theorem evaluates the code at the failing input. -/
theorem setMapped_northeast_ignores_ceiling :
    planDuty 180 = 33 ∧
    setMapped 1 1 180 =
      { left := { duty := some 50, spin := Spin.CW }
        right := { duty := some 25, spin := Spin.CW }
        direction := "NORTH EAST" } ∧
    (setMapped 1 1 180).left.duty ≠ some (planDuty 180) ∧
    (setMapped 1 1 180).right.duty ≠ some 16 ∧
    (setMapped 1 1 180).right.duty ≠ some 17 := by decide

/-- C3: a remote pair, when produced this cycle (fromMQTT = true), is
selected unchanged regardless of the local pair; the local pair is selected
exactly when the remote source produced none (fromMQTT = false); MQTT::Loop
clears the remote buffer for the next cycle; and a remote (0, 0) pair
yields class STOP and stop commands on both wheels (spin STOP, no duty
write) whatever the local pair and the range reading are. -/
theorem remote_preempts_local (s n : MotorXY) (r : Int) :
    (s.fromMQTT = true → loopSelect s n = s) ∧
    (s.fromMQTT = false → loopSelect s n = n) ∧
    (mqttLoop s).2 = { motor_x := 0, motor_y := 0, fromMQTT := false } ∧
    (s.fromMQTT = true → s.motor_x = 0 → s.motor_y = 0 →
      classify (loopSelect s n).motor_x (loopSelect s n).motor_y = MovementClass.STOP ∧
      setMapped (loopSelect s n).motor_x (loopSelect s n).motor_y r =
        { left := { duty := none, spin := Spin.STOP }
          right := { duty := none, spin := Spin.STOP }
          direction := "STOP" }) := by
  refine ⟨?_, ?_, rfl, ?_⟩
  · intro h
    simp [loopSelect, h]
  · intro h
    simp [loopSelect, h]
  · intro h hx hy
    have hsel : loopSelect s n = s := by simp [loopSelect, h]
    rw [hsel, hx, hy]
    exact ⟨by decide, rfl⟩

/-- Witness for C3: the callback on an idle remote stick (0, 0) still
produces a pair (fromMQTT = true), which preempts a non-zero local pair
(1, 0) and stops both wheels; and with no remote pair the local pair is
selected. -/
theorem remote_preempts_local_witness :
    (callbackUpdate 0 0).fromMQTT = true ∧
    (classify (loopSelect (callbackUpdate 0 0) { motor_x := 1, motor_y := 0, fromMQTT := false }).motor_x
        (loopSelect (callbackUpdate 0 0) { motor_x := 1, motor_y := 0, fromMQTT := false }).motor_y =
        MovementClass.STOP ∧
      setMapped (loopSelect (callbackUpdate 0 0) { motor_x := 1, motor_y := 0, fromMQTT := false }).motor_x
        (loopSelect (callbackUpdate 0 0) { motor_x := 1, motor_y := 0, fromMQTT := false }).motor_y 123 =
        { left := { duty := none, spin := Spin.STOP }
          right := { duty := none, spin := Spin.STOP }
          direction := "STOP" }) ∧
    loopSelect { motor_x := 0, motor_y := 0, fromMQTT := false } { motor_x := 1, motor_y := 0, fromMQTT := false } =
      { motor_x := 1, motor_y := 0, fromMQTT := false } :=
  ⟨by decide,
   (remote_preempts_local (callbackUpdate 0 0) { motor_x := 1, motor_y := 0, fromMQTT := false } 123).2.2.2
     (by decide) (by decide) (by decide),
   (remote_preempts_local { motor_x := 0, motor_y := 0, fromMQTT := false }
     { motor_x := 1, motor_y := 0, fromMQTT := false } 0).2.1 (by decide)⟩

/-- C4 counterexample: the claim states that mapToWheels(STOP, c) produces
duty = 0 and spin = STOP on both sides. At c = 50 the code's STOP branch
issues no duty write at all (changeDuty is never called), so the output is
(no duty, STOP) on both sides, not (duty 0, STOP). -/
theorem mapToWheels_stop_no_duty_write :
    mapToWheels MovementClass.STOP 50 =
      ({ duty := none, spin := Spin.STOP }, { duty := none, spin := Spin.STOP }) ∧
    mapToWheels MovementClass.STOP 50 ≠
      ({ duty := some 0, spin := Spin.STOP }, { duty := some 0, spin := Spin.STOP }) := by decide

/-- C4 amended: classify(0,0) = STOP, and for every duty ceiling c the STOP
branch commands spin STOP on both sides and writes no duty value (the duty
registers keep their previous contents; the wheels are stopped by the spin
status alone). -/
theorem classify_zero_stop_spin_only :
    classify 0 0 = MovementClass.STOP ∧
    ∀ c : Int, mapToWheels MovementClass.STOP c =
      ({ duty := none, spin := Spin.STOP }, { duty := none, spin := Spin.STOP }) :=
  ⟨by decide, fun _ => rfl⟩

/-- C5 counterexample: the claim states the raw 0-255 axis is reduced with
a split symmetric about the midpoint of the range, upper-region values
mapping to +1. The code maps 100 (lower region) to -1, but its mirror
value 155 (upper region under a symmetric split) to 0, not +1. -/
theorem nunchuckAxis_not_midpoint_symmetric :
    nunchuckAxis 100 = -1 ∧ nunchuckAxis 155 = 0 ∧ nunchuckAxis 155 ≠ 1 := by decide

/-- C5 amended: map(joy, 0, 255, -1, 1) with C truncating division reduces
the axis to -1 on 0-127, 0 on 128-254, and +1 only at exactly 255: the
lower threshold sits at the midpoint but the upper threshold is the extreme
value, so the split is not symmetric. -/
theorem nunchuckAxis_threshold_split (x : Int) (h0 : 0 ≤ x) (h255 : x ≤ 255) :
    nunchuckAxis x = if x ≤ 127 then -1 else if x ≤ 254 then 0 else 1 := by
  have hnum : (x - 0) * (1 - (-1)) = 2 * x := by ring
  unfold nunchuckAxis arduinoMap
  rw [hnum, Int.tdiv_eq_ediv (by omega) (by omega)]
  split_ifs <;> omega

/-- Witness for C5 amended: at raw value 200 the axis reduces to 0. -/
theorem nunchuckAxis_threshold_split_witness :
    ((0 : Int) ≤ 200 ∧ (200 : Int) ≤ 255) ∧
    nunchuckAxis 200 = if (200 : Int) ≤ 127 then -1 else if (200 : Int) ≤ 254 then 0 else 1 :=
  ⟨⟨by decide, by decide⟩, nunchuckAxis_threshold_split 200 (by decide) (by decide)⟩

/-- C8: with the source constants (DeadzoneMM = 60, SafeDistanceMM = 300,
minimumDuty = 16, maxDuty = 50) the speed law's boundary values are
planDuty 60 = 16, planDuty 300 = 50, planDuty 301 = 50, planDuty 59 = 0. -/
theorem planDuty_boundary_values :
    DeadzoneMM = 60 ∧ SafeDistanceMM = 300 ∧ minimumDuty = 16 ∧ maxDuty = 50 ∧
    planDuty 60 = minimumDuty ∧ planDuty 300 = maxDuty ∧
    planDuty 301 = maxDuty ∧ planDuty 59 = 0 := by decide

/-- C9: whenever the direction chain takes the EAST (resp. WEST) branch,
the emitted wheel commands are the fixed rotation-in-place pair at duty
maxRotationDuty with opposite spins, identical for any two range readings:
rotation is not throttled by the range-based ceiling. -/
theorem rotation_independent_of_range (x y r1 r2 : Int) :
    (classify x y = MovementClass.EAST →
      setMapped x y r1 =
        { left := { duty := some maxRotationDuty, spin := Spin.CW }
          right := { duty := some maxRotationDuty, spin := Spin.CCW }
          direction := "EAST" } ∧
      setMapped x y r1 = setMapped x y r2) ∧
    (classify x y = MovementClass.WEST →
      setMapped x y r1 =
        { left := { duty := some maxRotationDuty, spin := Spin.CCW }
          right := { duty := some maxRotationDuty, spin := Spin.CW }
          direction := "WEST" } ∧
      setMapped x y r1 = setMapped x y r2) := by
  constructor
  · intro h
    obtain ⟨hx, hy⟩ := (classify_east_iff x y).mp h
    subst hx
    subst hy
    exact ⟨rfl, rfl⟩
  · intro h
    obtain ⟨hx, hy⟩ := (classify_west_iff x y).mp h
    subst hx
    subst hy
    exact ⟨rfl, rfl⟩

/-- Witness for C9: intent (1, 0) rotates EAST with the same commands at
500 mm and at the INT_MAX sentinel; intent (-1, 0) rotates WEST. -/
theorem rotation_independent_of_range_witness :
    classify 1 0 = MovementClass.EAST ∧
    setMapped 1 0 500 =
      { left := { duty := some maxRotationDuty, spin := Spin.CW }
        right := { duty := some maxRotationDuty, spin := Spin.CCW }
        direction := "EAST" } ∧
    setMapped 1 0 500 = setMapped 1 0 INT_MAX ∧
    classify (-1) 0 = MovementClass.WEST ∧
    setMapped (-1) 0 500 =
      { left := { duty := some maxRotationDuty, spin := Spin.CCW }
        right := { duty := some maxRotationDuty, spin := Spin.CW }
        direction := "WEST" } :=
  ⟨by decide,
   ((rotation_independent_of_range 1 0 500 INT_MAX).1 (by decide)).1,
   ((rotation_independent_of_range 1 0 500 INT_MAX).1 (by decide)).2,
   by decide,
   ((rotation_independent_of_range (-1) 0 500 123).2 (by decide)).1⟩

/-- C6 counterexample: the claim states the ramp-zone ceiling is the linear
interpolation rounded to the nearest integer. At 64 mm the interpolation is
16 + 4 * 34 / 240 = 16.5666..., whose nearest integer is 17, but Arduino
map truncates and the code computes 16. -/
theorem planDuty_not_nearest_rounding :
    planDuty 64 = 16 ∧ planDutyNearest 64 = 17 ∧ planDuty 64 ≠ planDutyNearest 64 := by
  have h1 : planDuty 64 = 16 := by decide
  have h2 : planDutyNearest 64 = 17 := by
    norm_num [planDutyNearest, round_eq, minimumDuty, DeadzoneMM, maxDuty, SafeDistanceMM]
  refine ⟨h1, h2, ?_⟩
  rw [h1, h2]
  decide

/-- C6 amended: within the ramp zone the ceiling is the linear
interpolation of the reading from [DeadzoneMM, SafeDistanceMM] onto
[minimumDuty, maxDuty] rounded DOWN (truncated), i.e. its floor. -/
theorem planDuty_ramp_is_floor_of_interp (d : Int)
    (h1 : DeadzoneMM ≤ d) (h2 : d ≤ SafeDistanceMM) :
    planDuty d =
      ⌊(minimumDuty : ℚ) +
        ((d : ℚ) - (DeadzoneMM : ℚ)) * ((maxDuty : ℚ) - (minimumDuty : ℚ)) /
          ((SafeDistanceMM : ℚ) - (DeadzoneMM : ℚ))⌋ := by
  have g1 : (60 : Int) ≤ d := h1
  have g2 : d ≤ (300 : Int) := h2
  simp only [planDuty, arduinoMap, DeadzoneMM, SafeDistanceMM, minimumDuty, maxDuty]
  rw [if_neg (by omega), if_pos (by omega)]
  rw [Int.tdiv_eq_ediv (mul_nonneg (by omega) (by norm_num)) (by norm_num)]
  have key : ((16 : Int) : ℚ) +
      ((d : ℚ) - ((60 : Int) : ℚ)) * (((50 : Int) : ℚ) - ((16 : Int) : ℚ)) /
        (((300 : Int) : ℚ) - ((60 : Int) : ℚ)) =
      (((d - 60) * 34 + 3840 : Int) : ℚ) / ((240 : ℕ) : ℚ) := by
    push_cast
    ring
  rw [key, Rat.floor_intCast_div_natCast]
  omega

/-- Witness for C6 amended: at 180 mm the ceiling equals the floor of the
interpolation. -/
theorem planDuty_ramp_is_floor_of_interp_witness :
    (DeadzoneMM ≤ (180 : Int) ∧ (180 : Int) ≤ SafeDistanceMM) ∧
    planDuty 180 =
      ⌊(minimumDuty : ℚ) +
        (((180 : Int) : ℚ) - (DeadzoneMM : ℚ)) * ((maxDuty : ℚ) - (minimumDuty : ℚ)) /
          ((SafeDistanceMM : ℚ) - (DeadzoneMM : ℚ))⌋ :=
  ⟨⟨by decide, by decide⟩, planDuty_ramp_is_floor_of_interp 180 (by decide) (by decide)⟩

/-- C7: within the ramp zone the duty ceiling is monotonically
non-decreasing in distance: DeadzoneMM ≤ d1 < d2 ≤ SafeDistanceMM implies
planDuty d1 ≤ planDuty d2. -/
theorem planDuty_monotone (d1 d2 : Int)
    (h1 : DeadzoneMM ≤ d1) (h12 : d1 < d2) (h2 : d2 ≤ SafeDistanceMM) :
    planDuty d1 ≤ planDuty d2 := by
  have g1 : (60 : Int) ≤ d1 := h1
  have g2 : d2 ≤ (300 : Int) := h2
  simp only [planDuty, arduinoMap, DeadzoneMM, SafeDistanceMM, minimumDuty, maxDuty]
  rw [if_neg (by omega), if_pos (by omega), if_neg (by omega), if_pos (by omega)]
  rw [Int.tdiv_eq_ediv (mul_nonneg (by omega) (by norm_num)) (by norm_num)]
  rw [Int.tdiv_eq_ediv (mul_nonneg (by omega) (by norm_num)) (by norm_num)]
  omega

/-- Witness for C7: planDuty 100 ≤ planDuty 200. -/
theorem planDuty_monotone_witness :
    (DeadzoneMM ≤ (100 : Int) ∧ (100 : Int) < 200 ∧ (200 : Int) ≤ SafeDistanceMM) ∧
    planDuty 100 ≤ planDuty 200 :=
  ⟨⟨by decide, by decide, by decide⟩, planDuty_monotone 100 200 (by decide) (by decide) (by decide)⟩

/-- C10: nunchuck_get_data writes the received bytes at consecutive buffer
indices 0, 1, 2, ..., one per available byte; every write hits the 6-byte
buffer nunchuck_buf in bounds exactly when at most 6 bytes are delivered,
and whenever more than 6 bytes are delivered some write's index exceeds 5
(an out-of-bounds write). -/
theorem nunchuck_get_data_write_bounds (available : List Nat) :
    ((nunchuck_get_data available).1.map Prod.fst = List.range available.length) ∧
    ((∀ w ∈ (nunchuck_get_data available).1, w.1 < 6) ↔ available.length ≤ 6) ∧
    (6 < available.length → ∃ w ∈ (nunchuck_get_data available).1, 5 < w.1) := by
  have hmap : (nunchuck_get_data available).1.map Prod.fst = List.range available.length := by
    show (getDataWrites available 0).map Prod.fst = List.range available.length
    rw [getDataWrites_map_fst, List.range_eq_range']
  refine ⟨hmap, ⟨?_, ?_⟩, ?_⟩
  · intro h
    by_contra hlen
    push_neg at hlen
    have h6 : 6 ∈ (nunchuck_get_data available).1.map Prod.fst := by
      rw [hmap]
      exact List.mem_range.mpr (by omega)
    obtain ⟨w, hw, hfst⟩ := List.mem_map.mp h6
    have := h w hw
    omega
  · intro hle w hw
    have hmem : w.1 ∈ (nunchuck_get_data available).1.map Prod.fst :=
      List.mem_map_of_mem Prod.fst hw
    rw [hmap] at hmem
    have := List.mem_range.mp hmem
    omega
  · intro hlen
    have h6 : 6 ∈ (nunchuck_get_data available).1.map Prod.fst := by
      rw [hmap]
      exact List.mem_range.mpr hlen
    obtain ⟨w, hw, hfst⟩ := List.mem_map.mp h6
    exact ⟨w, hw, by omega⟩

/-- Witness for C10: with 7 delivered bytes the loop performs a write at
index 6, past the end of the 6-byte buffer. -/
theorem nunchuck_get_data_write_bounds_witness :
    6 < ([10, 20, 30, 40, 50, 60, 70] : List Nat).length ∧
    ∃ w ∈ (nunchuck_get_data [10, 20, 30, 40, 50, 60, 70]).1, 5 < w.1 :=
  ⟨by decide, (nunchuck_get_data_write_bounds [10, 20, 30, 40, 50, 60, 70]).2.2 (by decide)⟩

end DuploCar
